import Mathlib

/-!
Shallow embedding of the request-to-query translation layer of
`src/main.rs` (a user-record HTTP service backed by a ScyllaDB session).

Each Actix handler is modelled as a total Lean function. The store is
external, so its behaviour at each interaction point is an explicit input:

* for the two `SELECT` handlers the input is a `StreamSetup`, covering the
  three outcomes of `session.query_iter` + `rows_stream`
  (query error, stream-construction error, or a lazy row stream);
* the lazy row stream itself is a `List Pull`: each pull either delivers a
  decoded `(id, name, email)` row or fails (a row-decoding/transport error);
  the end of the list is the end of the sequence;
* for the three mutation handlers (`INSERT` / `UPDATE` / `DELETE`) the input
  is an oracle `exec` from the built `(statement, parameters)` pair to the
  store acknowledgement, modelling `session.query_unpaged`.

`Uuid` values are modelled by their display strings, which is exactly how
the code renders them into messages and (for the update handler) into
statement text.
-/

namespace UserService

/-- The domain entity (struct `User` in main.rs): one row of the users
table, with the `Uuid` identifier modelled by its display string. -/
structure User where
  id : String
  name : String
  email : String
deriving DecidableEq

/-- The creation payload (struct `NewUser` in main.rs): `name` and `email`
only — the struct has no `id` field, so a client can never supply one. -/
structure NewUser where
  name : String
  email : String
deriving DecidableEq

/-- The partial-update payload (struct `UpdateUser` in main.rs): each field
independently present or absent. -/
structure UpdateUser where
  name : Option String
  email : Option String
deriving DecidableEq

/-- A JSON response body: either a quoted message string (the confirmation
and error bodies built with `format!`), a single serialized `User`, or a
serialized list of users. -/
inductive Body where
  | msg : String → Body
  | user : User → Body
  | users : List User → Body
deriving DecidableEq

/-- An HTTP response: status code plus JSON body. `HttpResponse::Ok` is 200,
`Created` 201, `NotFound` 404, `InternalServerError` 500. -/
structure HttpResponse where
  status : Nat
  body : Body
deriving DecidableEq

/-- One pull from the typed lazy row stream
(`rows_stream::<(Uuid, String, String)>()`): either a decoded row or a
row-decoding/transport failure. -/
inductive Pull where
  | row : String × String × String → Pull
  | err : String → Pull
deriving DecidableEq

/-- The store's behaviour for a `SELECT` handler: `session.query_iter` can
fail, `results.rows_stream()` can fail, or a lazy row stream is available
(the end of the pull list is the end of the sequence). -/
inductive StreamSetup where
  | queryErr : String → StreamSetup
  | streamErr : String → StreamSetup
  | stream : List Pull → StreamSetup
deriving DecidableEq

/-- Rust `query.ends_with(',')`: the string's last character is a comma. -/
def endsWithComma (s : String) : Bool :=
  s.data.getLast? == some ','

/-- Rust `query.pop()` with the returned character discarded: drop the last
character of the string. -/
def popLast (s : String) : String :=
  ⟨s.data.dropLast⟩

/-- The keyspace configured in `AppState` at startup:
`keyspace: String::from("my_keyspace")`. -/
def appKeyspace : String := "my_keyspace"

/-- Rust `rows_stream.try_next().await` on the modelled stream: delivers the
next row and the rest of the stream, `none` at end-of-sequence, or the pull
failure as an error. -/
def tryNext : List Pull → Except String (Option (String × String × String) × List Pull)
  | [] => .ok (none, [])
  | .row r :: rest => .ok (some r, rest)
  | .err e :: _ => .error e

/-- Rust `.unwrap_or(None)` as applied to the `try_next` result in
`get_user_by_id`: an `Ok` is unwrapped, an `Err` is silently replaced by
`None`. -/
def unwrapOrNone (r : Except String (Option (String × String × String) × List Pull)) :
    Option (String × String × String) :=
  match r with
  | .ok (o, _) => o
  | .error _ => none

/-- The `while let Some(row) = ... try_next()` loop of `get_all_users`: push
each decoded row onto the users vector in arrival order; a pull failure
aborts the drain with the error. -/
def drainLoop : List Pull → List User → Except String (List User)
  | [], users => .ok users
  | .row (i, n, e) :: rest, users => drainLoop rest (users ++ [⟨i, n, e⟩])
  | .err e :: _, _ => .error e

/-- The statement text built by `get_all_users`. -/
def get_all_users_query (ks : String) : String :=
  "SELECT id, name, email FROM " ++ ks ++ ".users"

/-- Handler for `GET /users` (`get_all_users` in main.rs): drain the whole
row stream into a vector and answer 200 with it; any store failure answers
500 with the corresponding diagnostic message. -/
def get_all_users (setup : StreamSetup) : HttpResponse :=
  match setup with
  | .queryErr e => ⟨500, .msg ("Query error: " ++ e)⟩
  | .streamErr e => ⟨500, .msg ("Error streaming rows: " ++ e)⟩
  | .stream pulls =>
    match drainLoop pulls [] with
    | .ok users => ⟨200, .users users⟩
    | .error e => ⟨500, .msg ("Error fetching next row: " ++ e)⟩

/-- The statement text built by `get_user_by_id`; the identifier is a bound
parameter here. -/
def get_user_by_id_query (ks : String) : String :=
  "SELECT id, name, email FROM " ++ ks ++ ".users WHERE id = ?"

/-- Handler for `GET /users/{id}` (`get_user_by_id` in main.rs): the first
`try_next` result is passed through `unwrap_or(None)`; a first row answers
200 with the decoded user, otherwise 404 not-found. Query and
stream-construction failures answer 500. -/
def get_user_by_id (uid : String) (setup : StreamSetup) : HttpResponse :=
  match setup with
  | .queryErr e => ⟨500, .msg ("Failed to execute query: " ++ e)⟩
  | .streamErr e => ⟨500, .msg ("Error streaming rows: " ++ e)⟩
  | .stream pulls =>
    match unwrapOrNone (tryNext pulls) with
    | some (i, n, e) => ⟨200, .user ⟨i, n, e⟩⟩
    | none => ⟨404, .msg ("User with ID " ++ uid ++ " not found")⟩

/-- The `(statement, bound parameters)` pair built by `register_user`: all
three values, the server-generated id included, sit behind `?` placeholders
in the parameter tuple. -/
def register_user_build (ks newId n e : String) : String × (String × String × String) :=
  ("INSERT INTO " ++ ks ++ ".users (id, name, email) VALUES (?, ?, ?)", (newId, n, e))

/-- Handler for `POST /register` (`register_user` in main.rs). `newId`
stands for the freshly generated `Uuid::new_v4()`; `exec` is the store's
acknowledgement of `query_unpaged` on the built statement. Success answers
201 with a confirmation carrying the new id. -/
def register_user (ks newId : String) (nu : NewUser)
    (exec : String × (String × String × String) → Except String Unit) : HttpResponse :=
  match exec (register_user_build ks newId nu.name nu.email) with
  | .ok _ => ⟨201, .msg ("User " ++ newId ++ " created successfully")⟩
  | .error e => ⟨500, .msg ("Failed to create user: " ++ e)⟩

/-- The `(statement, bound parameters)` pair built by `update_user`:
start from `UPDATE {ks}.users SET`, append ` name = ?,` and/or
` email = ?,` for the fields present (pushing the values onto the parameter
vector), strip a trailing comma, then append the WHERE clause with the
identifier formatted directly into the text
(`format!(" WHERE id = {}", user_id_value)`). -/
def update_user_build (ks uid : String) (u : UpdateUser) : String × List String :=
  let query := "UPDATE " ++ ks ++ ".users SET"
  let params : List String := []
  let qp :=
    match u.name with
    | some n => (query ++ " name = ?,", params ++ [n])
    | none => (query, params)
  let qp2 :=
    match u.email with
    | some e => (qp.1 ++ " email = ?,", qp.2 ++ [e])
    | none => qp
  let q3 := if endsWithComma qp2.1 then popLast qp2.1 else qp2.1
  (q3 ++ " WHERE id = " ++ uid, qp2.2)

/-- Handler for `PATCH /update/{id}` (`update_user` in main.rs): execute the
built statement; any store acknowledgement answers 200 with a confirmation,
any store error answers 500. -/
def update_user (ks uid : String) (u : UpdateUser)
    (exec : String × List String → Except String Unit) : HttpResponse :=
  match exec (update_user_build ks uid u) with
  | .ok _ => ⟨200, .msg ("User with ID " ++ uid ++ " updated successfully")⟩
  | .error e => ⟨500, .msg ("Failed to update user: " ++ e)⟩

/-- The `(statement, bound parameters)` pair built by `delete_user`: the
identifier is the single bound parameter. -/
def delete_user_build (ks uid : String) : String × List String :=
  ("DELETE FROM " ++ ks ++ ".users WHERE id = ?", [uid])

/-- Handler for `DELETE /delete/{id}` (`delete_user` in main.rs): execute
the built statement; any store acknowledgement answers 200 with a
confirmation, any store error answers 500. -/
def delete_user (ks uid : String)
    (exec : String × List String → Except String Unit) : HttpResponse :=
  match exec (delete_user_build ks uid) with
  | .ok _ => ⟨200, .msg ("User with ID " ++ uid ++ " deleted successfully")⟩
  | .error e => ⟨500, .msg ("Failed to delete user: " ++ e)⟩

/-- Claim C1 (against the code): at a concrete update request the builder
formats the user-supplied identifier directly into the statement text — the
id appears verbatim after `WHERE id = ` while the parameter list holds only
the name value, so the identifier is not a bound parameter. -/
theorem update_build_interpolates_id :
    update_user_build appKeyspace "e4a0c337-0001-4000-8000-000000000001"
        ⟨some "B", none⟩
      = ("UPDATE my_keyspace.users SET name = ? WHERE id = e4a0c337-0001-4000-8000-000000000001",
         ["B"]) := by
  decide

/-- Claim C2 (against the code): with both fields absent the builder still
emits a statement, and it is malformed — a dangling `SET` keyword with no
assignment, directly followed by the WHERE clause. -/
theorem update_build_empty_payload_malformed :
    update_user_build appKeyspace "e4a0c337-0002-4000-8000-000000000002"
        ⟨none, none⟩
      = ("UPDATE my_keyspace.users SET WHERE id = e4a0c337-0002-4000-8000-000000000002",
         []) := by
  decide

/-- Claim C3 (against the code): a failure pulling the first element of the
row stream is surfaced as a 500 by the list handler, but the get-by-id
handler swallows the same failure through `unwrap_or(None)` and answers 404
not-found instead of a service fault. -/
theorem pull_failure_masked_as_not_found :
    get_all_users (.stream [.err "connection reset"])
      = ⟨500, .msg "Error fetching next row: connection reset"⟩ ∧
    get_user_by_id "e4a0c337-0003-4000-8000-000000000003"
        (.stream [.err "connection reset"])
      = ⟨404, .msg "User with ID e4a0c337-0003-4000-8000-000000000003 not found"⟩ := by
  exact ⟨rfl, rfl⟩

/-- Claim C4: for every get-by-id request over a row stream, a first row
yields a 200 response carrying exactly the user decoded from that row, and
an empty sequence yields the 404 not-found response — never a fault and
never a zero-valued record. -/
theorem get_user_by_id_first_row_or_not_found (uid i n e : String) (rest : List Pull) :
    get_user_by_id uid (.stream (.row (i, n, e) :: rest)) = ⟨200, .user ⟨i, n, e⟩⟩ ∧
    get_user_by_id uid (.stream []) = ⟨404, .msg ("User with ID " ++ uid ++ " not found")⟩ :=
  ⟨rfl, rfl⟩

/-- Claim C5: for every update payload and id, the built statement carries a
SET assignment for exactly the fields present, name before email, and the
bound parameters are the present values in that same order — the builder is
a deterministic function fully characterised by these four cases. -/
theorem update_build_canonical_set_clause (uid n e : String) :
    update_user_build appKeyspace uid ⟨some n, some e⟩
      = ("UPDATE my_keyspace.users SET name = ?, email = ? WHERE id = " ++ uid, [n, e]) ∧
    update_user_build appKeyspace uid ⟨some n, none⟩
      = ("UPDATE my_keyspace.users SET name = ? WHERE id = " ++ uid, [n]) ∧
    update_user_build appKeyspace uid ⟨none, some e⟩
      = ("UPDATE my_keyspace.users SET email = ? WHERE id = " ++ uid, [e]) ∧
    update_user_build appKeyspace uid ⟨none, none⟩
      = ("UPDATE my_keyspace.users SET WHERE id = " ++ uid, []) :=
  ⟨rfl, rfl, rfl, rfl⟩

/-- The drain loop over an error-free stream appends every row, in stream
order, to the accumulated vector. -/
theorem drainLoop_map_row (rows : List (String × String × String)) (acc : List User) :
    drainLoop (rows.map Pull.row) acc
      = .ok (acc ++ rows.map (fun r => User.mk r.1 r.2.1 r.2.2)) := by
  induction rows generalizing acc with
  | nil => simp [drainLoop]
  | cons r rs ih =>
    obtain ⟨i, n, e⟩ := r
    simp [drainLoop, ih]

/-- Claim C6: for every error-free row stream, the list handler drains the
whole sequence into a vector holding each delivered row exactly once, in
store-delivered order, and answers 200 with that (possibly empty) vector. -/
theorem get_all_users_drains_in_order (rows : List (String × String × String)) :
    get_all_users (.stream (rows.map Pull.row))
      = ⟨200, .users (rows.map (fun r => User.mk r.1 r.2.1 r.2.2))⟩ := by
  simp [get_all_users, drainLoop_map_row]

/-- Claim C7: for every creation payload and every server-generated id, the
insert statement is the fixed text with three placeholders and the id, name
and email all ride in the bound-parameter tuple; when the store acknowledges
the built statement, the handler answers 201 with a confirmation carrying
the new id. The payload type `NewUser` has no id field, so the id can only
be the server-generated one. -/
theorem register_user_bound_insert_created (newId n e : String)
    (exec : String × (String × String × String) → Except String Unit)
    (h : exec (register_user_build appKeyspace newId n e) = .ok ()) :
    register_user_build appKeyspace newId n e
      = ("INSERT INTO my_keyspace.users (id, name, email) VALUES (?, ?, ?)", (newId, n, e)) ∧
    register_user appKeyspace newId ⟨n, e⟩ exec
      = ⟨201, .msg ("User " ++ newId ++ " created successfully")⟩ := by
  refine ⟨rfl, ?_⟩
  simp [register_user, h]

/-- Witness for C7 at a concrete payload and id, with a store that
acknowledges every statement. -/
theorem register_user_bound_insert_created_witness :
    register_user_build appKeyspace "id-w7" "Alice" "alice@example.com"
      = ("INSERT INTO my_keyspace.users (id, name, email) VALUES (?, ?, ?)",
         ("id-w7", "Alice", "alice@example.com")) ∧
    register_user appKeyspace "id-w7" ⟨"Alice", "alice@example.com"⟩ (fun _ => .ok ())
      = ⟨201, .msg "User id-w7 created successfully"⟩ :=
  register_user_bound_insert_created "id-w7" "Alice" "alice@example.com"
    (fun _ => .ok ()) rfl

/-- Claim C8: an update payload with only name present builds a SET clause
assigning name alone (the email column is untouched by the statement), and
symmetrically with only email present. -/
theorem update_build_single_field_frame (uid n e : String) :
    update_user_build appKeyspace uid ⟨some n, none⟩
      = ("UPDATE my_keyspace.users SET name = ? WHERE id = " ++ uid, [n]) ∧
    update_user_build appKeyspace uid ⟨none, some e⟩
      = ("UPDATE my_keyspace.users SET email = ? WHERE id = " ++ uid, [e]) :=
  ⟨rfl, rfl⟩

/-- Claim C9: whenever the store acknowledges the built statement, the
update and delete handlers answer 200 with their confirmations, and whatever
the store does, neither handler ever produces a 404 response. -/
theorem update_delete_ack_success_never_not_found (uid : String) (u : UpdateUser)
    (ex ex2 : String × List String → Except String Unit)
    (h : ex (update_user_build appKeyspace uid u) = .ok ())
    (h2 : ex2 (delete_user_build appKeyspace uid) = .ok ()) :
    update_user appKeyspace uid u ex
      = ⟨200, .msg ("User with ID " ++ uid ++ " updated successfully")⟩ ∧
    delete_user appKeyspace uid ex2
      = ⟨200, .msg ("User with ID " ++ uid ++ " deleted successfully")⟩ ∧
    (∀ ex3 : String × List String → Except String Unit,
      (update_user appKeyspace uid u ex3).status ≠ 404) ∧
    (∀ ex4 : String × List String → Except String Unit,
      (delete_user appKeyspace uid ex4).status ≠ 404) := by
  refine ⟨?_, ?_, ?_, ?_⟩
  · simp [update_user, h]
  · simp [delete_user, h2]
  · intro ex3
    cases hx : ex3 (update_user_build appKeyspace uid u) <;> simp [update_user, hx]
  · intro ex4
    cases hx : ex4 (delete_user_build appKeyspace uid) <;> simp [delete_user, hx]

/-- Witness for C9 at a concrete id and payload, with a store that
acknowledges every statement. -/
theorem update_delete_ack_success_never_not_found_witness :
    update_user appKeyspace "id-w9" ⟨some "N", none⟩ (fun _ => .ok ())
      = ⟨200, .msg "User with ID id-w9 updated successfully"⟩ ∧
    delete_user appKeyspace "id-w9" (fun _ => .ok ())
      = ⟨200, .msg "User with ID id-w9 deleted successfully"⟩ := by
  have h := update_delete_ack_success_never_not_found "id-w9" ⟨some "N", none⟩
    (fun _ => .ok ()) (fun _ => .ok ()) rfl rfl
  exact ⟨h.1, h.2.1⟩

/-- Claim C10: the get-by-id handler consumes at most the first element of
the row stream — its response is the 200 built from the first row and is
the same whatever rows follow it. -/
theorem get_user_by_id_ignores_tail (uid i n e : String) (rest rest2 : List Pull) :
    get_user_by_id uid (.stream (.row (i, n, e) :: rest))
      = get_user_by_id uid (.stream (.row (i, n, e) :: rest2)) ∧
    get_user_by_id uid (.stream (.row (i, n, e) :: rest)) = ⟨200, .user ⟨i, n, e⟩⟩ :=
  ⟨rfl, rfl⟩

end UserService
